import Mathlib

/-!
Verification model of the aurora benchmarking scripts.

The repository is a PostgreSQL load-testing toolkit.  This file embeds the
statistics aggregation, worker/runner control flow, sweep controller and the
parallel-insert batching of the three scripts

  * aurora-map-bench.py         (namespace MapBench)
  * aurora-map-query-bench2.py  (namespace QueryBench2)
  * aurora-map-insertmany.py    (namespace InsertMany)

as executable Lean definitions.  Latencies and wall-clock durations are
modelled as exact rationals; the database, the thread scheduler and the random
parameter choice are abstracted into explicit inputs (per-worker outcome lists,
a per-run observation record, a row generator), so every definition below is a
direct transcription of the arithmetic and control flow of the scripts.
-/

/-- The mean of the Python statistics module: sum divided by count
(the scripts only call it on nonempty lists; on `[]` the rational division
yields 0, matching the guarded call sites). -/
def mean (xs : List ℚ) : ℚ := xs.sum / xs.length

/-- Python builtin `min` over a nonempty list (0 on `[]`, which every call
site in the scripts guards against). -/
def listMin : List ℚ → ℚ
  | [] => 0
  | x :: xs => xs.foldl min x

/-- Python builtin `max` over a nonempty list (0 on `[]`, guarded likewise). -/
def listMax : List ℚ → ℚ
  | [] => 0
  | x :: xs => xs.foldl max x

/-- Python builtin `sorted`: ascending stable sort.  Modelled by insertion
sort, which computes the same ascending rearrangement. -/
def sortedAsc (xs : List ℚ) : List ℚ := xs.insertionSort (· ≤ ·)

/-- The 0-based index `int(n * 0.95)` used by both benchmark scripts for the
95th percentile.  The scripts compute it with the double closest to 0.95, which
is slightly below 0.95; for every list length the scripts can produce (far
below 2^49) the rounded product has the same floor as the exact product, so the
index is exactly `19 * n / 20` in natural-number arithmetic. -/
def p95Index (n : ℕ) : ℕ := 19 * n / 20

/-- The p95 selection of both scripts:
`sorted(times)[int(len(times) * 0.95)]` - index into the ascending sort,
no interpolation between ranks. -/
def p95Stat (xs : List ℚ) : ℚ := (sortedAsc xs).getD (p95Index xs.length) 0

/-- `statistics.median`: the middle element of the sorted list when the count
is odd, the average of the two middle elements when it is even. -/
def pyMedian (xs : List ℚ) : ℚ :=
  let s := sortedAsc xs
  let n := s.length
  if n % 2 = 1 then s.getD (n / 2) 0
  else (s.getD (n / 2 - 1) 0 + s.getD (n / 2) 0) / 2

/-- `statistics.stdev` raises `StatisticsError` when given fewer than two data
points, and otherwise returns the square root of the sample variance
`sum (x - mean)^2 / (n - 1)`.  The square root of a rational is in general not
rational, so this model carries the variance, i.e. the square of the reported
value.  The square root is strictly monotone on the nonnegative reals and maps
0 to 0, so every statement below about the 0 sentinel transfers verbatim to the
value the script prints. -/
def sampleVarianceExc (xs : List ℚ) : Except Unit ℚ :=
  if xs.length < 2 then .error ()
  else .ok ((xs.map (fun x => (x - mean xs) ^ 2)).sum / ((xs.length : ℚ) - 1))

/-- The `try: stats[..] = statistics.stdev(times)` / `except StatisticsError:
stats[..] = 0` block of aurora-map-bench.py lines 168-171 (squared, see
`sampleVarianceExc`). -/
def stddev_time_entry (xs : List ℚ) : ℚ :=
  match sampleVarianceExc xs with
  | .ok v => v
  | .error _ => 0

namespace MapBench

/-- One successful sample of aurora-map-bench.py: the
`(execution_time, row_count)` pair returned by `execute_query`. -/
structure Sample where
  time : ℚ
  rows : ℕ
  deriving DecidableEq

/-- The stats dictionary built by `run_benchmark` lines 154-171.  The
`stddev_time` entry is carried squared (see `sampleVarianceExc`). -/
structure Stats where
  concurrency : ℕ
  total_queries : ℕ
  total_time : ℚ
  queries_per_second : ℚ
  min_time : ℚ
  max_time : ℚ
  avg_time : ℚ
  median_time : ℚ
  p95_time : ℚ
  total_rows : ℕ
  avg_rows : ℚ
  stddev_time_sq : ℚ
  deriving DecidableEq

/-- The result of one query invocation as seen by `worker_task`: either a
sample, or the exception the backend raised inside `execute_query`. -/
abbrev QueryOutcome := Except String Sample

/-- The result of one worker as seen by the runner: either the list of
successful samples the worker returned, or the exception that terminated the
worker (surfaced by `future.result()`). -/
abbrev WorkerOutcome := Except String (List Sample)

/-- `execute_query` lines 85-103, with the backend round trip abstracted into
its outcome: on success the sample is returned, on any exception the handler
logs and returns `None` (here `none`) instead of re-raising. -/
def execute_query (backend : QueryOutcome) : Option Sample :=
  match backend with
  | .ok s => some s
  | .error _ => none

/-- `worker_task` lines 105-120: one `execute_query` per iteration; the
sample is appended when the result is truthy (not `None`), otherwise the loop
simply continues with the next iteration. -/
def worker_task : List QueryOutcome → List Sample
  | [] => []
  | b :: rest =>
    match execute_query b with
    | some s => s :: worker_task rest
    | none => worker_task rest

/-- The number of failed invocations in a run of `worker_task`; the script
itself stores no such counter, this definition exists only to state that
fact. -/
def failure_count (backends : List QueryOutcome) : ℕ :=
  (backends.filter fun b => match b with | .ok _ => false | .error _ => true).length

/-- The future-collection loop of `run_benchmark` lines 136-142: each
completed worker contributes its samples via `results.extend(...)`; a worker
that raised is logged and contributes nothing. -/
def collect_results : List WorkerOutcome → List Sample
  | [] => []
  | Except.ok rs :: rest => rs ++ collect_results rest
  | Except.error _ :: rest => collect_results rest

/-- The statistics block of `run_benchmark` lines 146-173: with no successful
samples the function logs and returns `None`; otherwise it builds the stats
dictionary. -/
def aggregate (concurrency : ℕ) (results : List Sample) (total_time : ℚ) :
    Option Stats :=
  if results.isEmpty then none
  else
    some
      { concurrency := concurrency
        total_queries := results.length
        total_time := total_time
        queries_per_second := (results.length : ℚ) / total_time
        min_time := listMin (results.map Sample.time)
        max_time := listMax (results.map Sample.time)
        avg_time := mean (results.map Sample.time)
        median_time := pyMedian (results.map Sample.time)
        p95_time := p95Stat (results.map Sample.time)
        total_rows := (results.map Sample.rows).sum
        avg_rows := mean ((results.map Sample.rows).map fun r => (r : ℚ))
        stddev_time_sq := stddev_time_entry (results.map Sample.time) }

/-- `run_benchmark` lines 122-173, with the thread pool abstracted into the
list of worker outcomes and the observed wall-clock span
`total_time = time.time() - start_time` passed in explicitly. -/
def run_benchmark (concurrency : ℕ) (outcomes : List WorkerOutcome)
    (total_time : ℚ) : Option Stats :=
  aggregate concurrency (collect_results outcomes) total_time

/-- The connection-pool discipline of `execute_query` lines 85-103 made
explicit.  `acquired` is the outcome of `self.connection_pool.getconn()`
(`none` when it raised; `conn` starts as `None` so the `finally` block skips
the release), `runQuery` is the cursor work on the acquired handle.  The
second component is the list of handles passed to `putconn`: the `finally`
block releases `conn` exactly when it is not `None`, on the normal path and on
the exception path alike. -/
def execute_query_pool (acquired : Option ℕ)
    (runQuery : ℕ → Except String Sample) : Option Sample × List ℕ :=
  match acquired with
  | none => (none, [])
  | some conn =>
    match runQuery conn with
    | .ok s => (some s, [conn])
    | .error _ => (none, [conn])

/-- The timing structure of `execute_query` lines 87-95: `start_time` is read
first, then the pool handle is acquired, then the query executes and the rows
are fetched; `execution_time = time.time() - start_time` is computed before
the `finally` block releases the handle.  Inputs are the durations of the pool
acquisition, of the query round trip and of the release, plus the clock value
at entry; the result is the recorded latency sample and the clock at exit. -/
def executeTiming (acquireD queryD releaseD t0 : ℚ) : ℚ × ℚ :=
  let start_time := t0
  let afterAcquire := start_time + acquireD
  let afterQuery := afterAcquire + queryD
  let execution_time := afterQuery - start_time
  (execution_time, afterQuery + releaseD)

end MapBench

namespace QueryBench2

/-- The stats dictionary built by `run_benchmark` lines 130-139 of
aurora-map-query-bench2.py.  It has no median and no standard deviation
entry. -/
structure Stats where
  concurrency : ℕ
  total_queries : ℕ
  queries_per_second : ℚ
  avg_query_time : ℚ
  min_query_time : ℚ
  max_query_time : ℚ
  p95_query_time : ℚ
  avg_result_count : ℚ
  deriving DecidableEq

/-- The observations of one timed run, abstracting the worker threads, the
results queue and the database: the summed per-thread completed-query counts
(line 118), the drained per-query latencies and row counts (lines 120-127),
and the wall-clock time the runner spends after `time.sleep(duration)`
returns - joining the workers, which first finish their in-flight query, and
draining the queue - before the stats are computed. -/
structure RunData where
  total_queries : ℕ
  query_times : List ℚ
  result_counts : List ℕ
  join_tail : ℚ
  deriving DecidableEq

/-- `run_benchmark` lines 97-141: every latency statistic is guarded with a
0 default on an empty sample list, the p95 additionally requires at least 20
samples, and queries-per-second divides by the configured `duration`
parameter. -/
def run_benchmark (duration : ℚ) (d : RunData) (concurrency : ℕ) : Stats :=
  { concurrency := concurrency
    total_queries := d.total_queries
    queries_per_second := (d.total_queries : ℚ) / duration
    avg_query_time := if d.query_times.isEmpty then 0 else mean d.query_times
    min_query_time := if d.query_times.isEmpty then 0 else listMin d.query_times
    max_query_time := if d.query_times.isEmpty then 0 else listMax d.query_times
    p95_query_time :=
      if 20 ≤ d.query_times.length then p95Stat d.query_times else 0
    avg_result_count :=
      if d.result_counts.isEmpty then 0
      else mean (d.result_counts.map fun r => (r : ℚ)) }

/-- The wall-clock span of one `run_benchmark` call as an outside observer
measures it: the configured `time.sleep(duration)` plus the tail spent joining
the workers and draining the queue. -/
def observedWallTime (duration : ℚ) (d : RunData) : ℚ := duration + d.join_tail

/-- Python `range(a, b, s)` for a positive step `s`. -/
def pyRange (a b s : ℕ) : List ℕ :=
  (List.range ((b - a + s - 1) / s)).map fun i => a + i * s

/-- `run_escalating_benchmark` lines 143-165: one sequential `run_benchmark`
per concurrency level `step_size, 2*step_size, ..., <= max_concurrency`, the
stats appended in that order.  The per-level observations are abstracted into
`data`. -/
def run_escalating_benchmark (duration : ℚ) (data : ℕ → RunData)
    (maxConcurrency stepSize : ℕ) : List Stats :=
  (pyRange stepSize (maxConcurrency + 1) stepSize).map fun c =>
    run_benchmark duration (data c) c

/-- The fold underlying Python `max(xs, key=f)`: scan left keeping the current
best, replacing it only on a strictly larger key (so the first maximal element
wins). -/
def foldBest {α : Type} (key : α → ℚ) (x : α) (l : List α) : α :=
  l.foldl (fun best y => if key best < key y then y else best) x

/-- Python `max(results, key=...)`: `none` on the empty list (where Python
raises), otherwise the first element with maximal key. -/
def pyMaxBy {α : Type} (key : α → ℚ) : List α → Option α
  | [] => none
  | x :: xs => some (foldBest key x xs)

/-- Line 182 of `print_summary`:
`optimal = max(results, key=lambda x: x[..queries_per_second..])`. -/
def optimalStats (results : List Stats) : Option Stats :=
  pyMaxBy (fun s => s.queries_per_second) results

/-- The timing structure of the worker loop, lines 71-76: `query_start` is
read immediately before `cursor.execute` and `query_end` immediately after
`fetchall`, on a connection the thread already holds; nothing else falls
inside the measured interval. -/
def executeTiming2 (queryD t0 : ℚ) : ℚ × ℚ :=
  let query_start := t0
  let query_end := query_start + queryD
  (query_end - query_start, query_end)

end QueryBench2

namespace InsertMany

/-- Lines 155-157 of aurora-map-insertmany.py:
`batches_needed = NUM_ROWS // BATCH_SIZE`, incremented once when
`NUM_ROWS % BATCH_SIZE > 0`. -/
def batches_needed (numRows batchSize : ℕ) : ℕ :=
  numRows / batchSize + (if numRows % batchSize > 0 then 1 else 0)

/-- Line 161: `current_batch_size = min(BATCH_SIZE, NUM_ROWS - batch_id *
BATCH_SIZE)`. -/
def current_batch_size (numRows batchSize batchId : ℕ) : ℕ :=
  min batchSize (numRows - batchId * batchSize)

/-- The sizes of the batches enqueued by the loop of lines 159-167, in queue
order. -/
def batch_sizes (numRows batchSize : ℕ) : List ℕ :=
  (List.range (batches_needed numRows batchSize)).map
    (current_batch_size numRows batchSize)

/-- `generate_batch` lines 74-94: one appended row per iteration of
`for _ in range(batch_size)`; the random branch/tile/element/timestamp choices
are abstracted into the row generator `gen`. -/
def generate_batch {Row : Type} (batchSize : ℕ) (gen : ℕ → Row) : List Row :=
  (List.range batchSize).map gen

end InsertMany

/-! ## Helper lemmas -/

/-- `worker_task` is the filter of the successful invocations: every iteration
is processed, failed ones contribute nothing. -/
theorem worker_task_eq_filterMap (backends : List MapBench.QueryOutcome) :
    MapBench.worker_task backends = backends.filterMap MapBench.execute_query := by
  induction backends with
  | nil => rfl
  | cons b rest ih =>
    cases b with
    | ok s => simp [MapBench.worker_task, MapBench.execute_query,
        List.filterMap_cons, ih]
    | error e => simp [MapBench.worker_task, MapBench.execute_query,
        List.filterMap_cons, ih]

/-- Collecting worker outcomes distributes over list concatenation. -/
theorem collect_results_append (a b : List MapBench.WorkerOutcome) :
    MapBench.collect_results (a ++ b)
      = MapBench.collect_results a ++ MapBench.collect_results b := by
  induction a with
  | nil => rfl
  | cons o rest ih =>
    cases o with
    | ok rs => simp [MapBench.collect_results, ih]
    | error e => simp [MapBench.collect_results, ih]

/-! ## Claim theorems -/

/-- Claim C7 (confirmed): along every path of `execute_query` that acquires a
pool connection, the `finally` block releases it exactly once - on the normal
return and on the exception path alike - and no release happens when the
acquisition itself failed: the released handles are exactly the content of the
acquisition outcome. -/
theorem claim_c7_release_exactly_once (acquired : Option ℕ)
    (runQuery : ℕ → Except String MapBench.Sample) :
    (MapBench.execute_query_pool acquired runQuery).2 = acquired.toList := by
  cases acquired with
  | none => rfl
  | some conn =>
    cases h : runQuery conn with
    | ok s => simp [MapBench.execute_query_pool, h, Option.toList]
    | error e => simp [MapBench.execute_query_pool, h, Option.toList]

/-- Claim C5 counterexample: in aurora-map-bench.py the timer starts before
the pool handle is acquired, so with acquisition taking 1 s and the query
round trip 2 s the recorded latency sample is 3 s - it includes the queueing
delay, contradicting the claim that every recorded sample brackets exactly the
request/response round trip (which would give 2 s). -/
theorem claim_c5_counterexample :
    (MapBench.executeTiming 1 2 0 0).1 = 3
    ∧ (MapBench.executeTiming 1 2 0 0).1 ≠ 2 := by
  constructor <;> norm_num [MapBench.executeTiming]

/-- Claim C5 (amended): in aurora-map-query-bench2.py the measured interval
brackets exactly the request/response round trip on an already-held
connection (the sample equals the query duration); in aurora-map-bench.py the
timer is started before the pool acquisition, so the sample equals acquisition
plus query duration; the release in the `finally` block is excluded in both
scripts. -/
theorem claim_c5_amended (acquireD queryD releaseD t0 : ℚ) :
    (QueryBench2.executeTiming2 queryD t0).1 = queryD
    ∧ (MapBench.executeTiming acquireD queryD releaseD t0).1
        = acquireD + queryD := by
  constructor
  · simp [QueryBench2.executeTiming2]
  · simp [MapBench.executeTiming]; ring

/-- Claim C6 (amended): on a backend error `execute_query` returns the failure
marker `None` to its caller instead of raising, and `worker_task` processes
every iteration, keeping exactly the successful samples in order - so one
failed sample never aborts the worker loop and failed samples are excluded
from all downstream statistics.  (No count of failed samples is kept; see the
counterexample.) -/
theorem claim_c6_failure_markers (backends : List MapBench.QueryOutcome)
    (e : String) :
    MapBench.worker_task backends = backends.filterMap MapBench.execute_query
    ∧ MapBench.execute_query (Except.error e) = none :=
  ⟨worker_task_eq_filterMap backends, rfl⟩

/-- Claim C6 counterexample: two worker runs with different numbers of failed
invocations (one vs. two) produce identical worker outcomes, and the outcome
is all the runner ever sees - so, contrary to the claim, no count of failed
samples is kept for observability anywhere in the script. -/
theorem claim_c6_counterexample :
    MapBench.worker_task [Except.error "connection reset"]
      = MapBench.worker_task
          [Except.error "connection reset", Except.error "timeout"]
    ∧ MapBench.failure_count [Except.error "connection reset"]
      ≠ MapBench.failure_count
          [Except.error "connection reset", Except.error "timeout"] := by
  constructor
  · rfl
  · decide

/-- Claim C9 (confirmed): a worker whose future raised is logged and skipped
by the collection loop of `run_benchmark`; the remaining workers' samples are
collected unchanged and the stats are computed from exactly those samples -
inserting a failed worker anywhere in the cohort leaves the benchmark result
untouched. -/
theorem claim_c9_worker_failure_isolated (c : ℕ)
    (pre post : List MapBench.WorkerOutcome) (e : String) (t : ℚ) :
    MapBench.run_benchmark c (pre ++ Except.error e :: post) t
      = MapBench.run_benchmark c (pre ++ post) t := by
  unfold MapBench.run_benchmark
  rw [collect_results_append, collect_results_append]
  rfl

/-- Claim C1 counterexample: in aurora-map-query-bench2.py the
queries-per-second figure divides by the configured step duration, not by the
observed wall-clock span.  A step configured for 8 s whose observed span is
10 s (2 s spent joining workers that finish their in-flight query and draining
the results queue) with 500 completed queries reports 500/8 = 62.5 qps,
not 500/10 = 50 as the claim requires. -/
theorem claim_c1_counterexample :
    QueryBench2.observedWallTime 8 ⟨500, [], [], 2⟩ = 10
    ∧ (QueryBench2.run_benchmark 8 ⟨500, [], [], 2⟩ 4).queries_per_second
        = 125 / 2
    ∧ (125 / 2 : ℚ) ≠ 500 / 10 := by
  refine ⟨?_, ?_, by norm_num⟩
  · norm_num [QueryBench2.observedWallTime]
  · norm_num [QueryBench2.run_benchmark]

/-- Claim C1 (amended): in aurora-map-bench.py every produced stats record
satisfies `queries_per_second = total_queries / total_time` where
`total_time` is the observed wall-clock span of the run and `total_queries`
counts the successful samples; in exact arithmetic 500 queries over a 10.0 s
span give exactly 50.0.  In aurora-map-query-bench2.py the divisor is instead
the configured step duration, which differs from the observed span whenever
the join-and-drain tail is positive. -/
theorem claim_c1_amended (c : ℕ) (outs : List MapBench.WorkerOutcome)
    (t dur : ℚ) (d : QueryBench2.RunData) (c2 : ℕ) :
    (MapBench.run_benchmark c outs t).map (fun s => s.queries_per_second)
      = (MapBench.run_benchmark c outs t).map
          (fun s => (s.total_queries : ℚ) / s.total_time)
    ∧ ((500 : ℚ) / 10 = 50)
    ∧ (QueryBench2.run_benchmark dur d c2).queries_per_second
        = (d.total_queries : ℚ) / dur := by
  refine ⟨?_, by norm_num, rfl⟩
  unfold MapBench.run_benchmark MapBench.aggregate
  split
  · rfl
  · simp

/-- Claim C3 counterexample: aurora-map-bench.py does not produce a
zero-sentinel stats record when the successful sample set is empty - it
returns `None` instead, and it does so identically whether a worker attempted
and failed every query, whether a worker returned without samples, or whether
there were no workers at all, so the cases are not distinguished either. -/
theorem claim_c3_counterexample :
    MapBench.run_benchmark 1 [Except.error "every query failed"] 10 = none
    ∧ MapBench.run_benchmark 1 [Except.ok []] 10 = none
    ∧ MapBench.run_benchmark 0 [] 10 = none :=
  ⟨rfl, rfl, rfl⟩

/-- Claim C3 (amended): with an empty successful sample set,
aurora-map-query-bench2.py still produces a stats record in which the average,
minimum, maximum and p95 latencies are the sentinel 0 while the completed
query count is reported unchanged; aurora-map-bench.py instead returns `None`
- no stats record at all - whenever the merged successful set is empty. -/
theorem claim_c3_amended (dur : ℚ) (q : ℕ) (rc : List ℕ) (tail : ℚ) (c : ℕ)
    (c1 : ℕ) (outs : List MapBench.WorkerOutcome) (t : ℚ)
    (hout : MapBench.collect_results outs = []) :
    ((QueryBench2.run_benchmark dur ⟨q, [], rc, tail⟩ c).avg_query_time = 0
      ∧ (QueryBench2.run_benchmark dur ⟨q, [], rc, tail⟩ c).min_query_time = 0
      ∧ (QueryBench2.run_benchmark dur ⟨q, [], rc, tail⟩ c).max_query_time = 0
      ∧ (QueryBench2.run_benchmark dur ⟨q, [], rc, tail⟩ c).p95_query_time = 0
      ∧ (QueryBench2.run_benchmark dur ⟨q, [], rc, tail⟩ c).total_queries = q)
    ∧ MapBench.run_benchmark c1 outs t = none := by
  refine ⟨⟨rfl, rfl, rfl, rfl, rfl⟩, ?_⟩
  unfold MapBench.run_benchmark
  rw [hout]
  rfl

/-- Claim C3 witness: a run whose only worker outcomes are a raised exception
and an empty sample list has an empty successful set, and the script indeed
returns `None` for it. -/
theorem claim_c3_witness :
    MapBench.run_benchmark 2 [Except.error "boom", Except.ok []] 10 = none :=
  (claim_c3_amended 1 0 [] 0 1 2 [Except.error "boom", Except.ok []] 10
    rfl).2

/-- Claim C4 (confirmed): with fewer than two successful samples - including
exactly one - `statistics.stdev` raises `StatisticsError` (modelled by the
error branch of `sampleVarianceExc`, never a division), the script catches it,
and the reported standard deviation entry is the sentinel 0. -/
theorem claim_c4_stdev_sentinel (xs : List ℚ) (h : xs.length < 2) :
    stddev_time_entry xs = 0 ∧ sampleVarianceExc xs = Except.error () := by
  have hvar : sampleVarianceExc xs = Except.error () := by
    unfold sampleVarianceExc
    rw [if_pos h]
  exact ⟨by unfold stddev_time_entry; rw [hvar], hvar⟩

/-- Claim C4 witness: the single-sample set. -/
theorem claim_c4_witness : stddev_time_entry [5] = 0 :=
  (claim_c4_stdev_sentinel [5] (by decide)).1

/-- Indexing into the ascending sort within bounds yields an element of the
original list. -/
theorem getD_sortedAsc_mem (xs : List ℚ) (i : ℕ) (h : i < xs.length) :
    (sortedAsc xs).getD i 0 ∈ xs := by
  have hlen : i < (sortedAsc xs).length := by
    rwa [sortedAsc, List.length_insertionSort]
  have hmem : (sortedAsc xs).getD i 0 ∈ sortedAsc xs := by
    rw [List.getD_eq_getElem?_getD, List.getElem?_eq_getElem hlen]
    simp [List.getElem_mem hlen]
  rwa [sortedAsc, List.mem_insertionSort] at hmem

/-- The p95 index is in range for every nonempty sample list. -/
theorem p95Index_lt (n : ℕ) (h : 1 ≤ n) : p95Index n < n := by
  unfold p95Index
  rw [Nat.div_lt_iff_lt_mul (by norm_num)]
  omega

/-- Claim C2 counterexample: for the 20-sample set with latencies 1..20 the
scripts report the element at sorted index 19 - the maximum, 20 - and not the
element at sorted index 18 (19) that the claim pins for n = 20; moreover
aurora-map-query-bench2.py with a single sample (7) reports the sentinel 0,
which is the element at no rank of the set at all. -/
theorem claim_c2_counterexample :
    p95Stat [20, 19, 18, 17, 16, 15, 14, 13, 12, 11,
             10, 9, 8, 7, 6, 5, 4, 3, 2, 1] = 20
    ∧ (sortedAsc [20, 19, 18, 17, 16, 15, 14, 13, 12, 11,
                  10, 9, 8, 7, 6, 5, 4, 3, 2, 1]).getD 18 0 = 19
    ∧ (QueryBench2.run_benchmark 10 ⟨1, [7], [1], 0⟩ 1).p95_query_time = 0
    ∧ (0 : ℚ) ∉ ([7] : List ℚ) := by
  refine ⟨by decide, by decide, rfl, by decide⟩

/-- Claim C2 (amended): the reported p95 is the element at 0-based index
`floor(0.95 * n) = 19 * n / 20` of the samples sorted ascending, with no
interpolation (in particular it is one of the samples); for n = 20 that index
is 19, the largest sample, not 18; aurora-map-query-bench2.py applies this
rule only when n >= 20 and reports the sentinel 0 for smaller nonempty
sets. -/
theorem claim_c2_amended (xs : List ℚ) (h : xs ≠ []) (dur : ℚ)
    (d : QueryBench2.RunData) (c : ℕ) :
    p95Stat xs = (sortedAsc xs).getD (19 * xs.length / 20) 0
    ∧ p95Stat xs ∈ xs
    ∧ p95Index 20 = 19
    ∧ (QueryBench2.run_benchmark dur d c).p95_query_time
        = (if 20 ≤ d.query_times.length then p95Stat d.query_times else 0) := by
  refine ⟨rfl, ?_, rfl, rfl⟩
  have hn : 1 ≤ xs.length := List.length_pos.mpr h
  exact getD_sortedAsc_mem xs _ (p95Index_lt xs.length hn)

/-- Claim C2 witness: a concrete three-sample set. -/
theorem claim_c2_witness : p95Stat [3, 1, 2] ∈ ([3, 1, 2] : List ℚ) :=
  (claim_c2_amended [3, 1, 2] (by decide) 1 ⟨0, [], [], 0⟩ 1).2.1

/-- The fold behind Python `max(..., key=...)` returns either its seed or a
list element, its key dominates the seed key, and it dominates the key of
every list element. -/
theorem foldBest_spec {α : Type} (key : α → ℚ) (l : List α) : ∀ (x : α),
    (QueryBench2.foldBest key x l = x ∨ QueryBench2.foldBest key x l ∈ l)
    ∧ key x ≤ key (QueryBench2.foldBest key x l)
    ∧ ∀ y ∈ l, key y ≤ key (QueryBench2.foldBest key x l) := by
  induction l with
  | nil =>
    intro x
    exact ⟨Or.inl rfl, le_refl _, by simp⟩
  | cons a l ih =>
    intro x
    have hstep : QueryBench2.foldBest key x (a :: l)
        = QueryBench2.foldBest key (if key x < key a then a else x) l := rfl
    by_cases hc : key x < key a
    · rw [hstep, if_pos hc]
      obtain ⟨hmem, hle, hall⟩ := ih a
      refine ⟨?_, le_trans (le_of_lt hc) hle, ?_⟩
      · rcases hmem with hm | hm
        · exact Or.inr (by rw [hm]; exact List.mem_cons_self a l)
        · exact Or.inr (List.mem_cons_of_mem _ hm)
      · intro y hy
        rcases List.mem_cons.mp hy with rfl | hy
        · exact hle
        · exact hall y hy
    · rw [hstep, if_neg hc]
      obtain ⟨hmem, hle, hall⟩ := ih x
      refine ⟨?_, hle, ?_⟩
      · rcases hmem with hm | hm
        · exact Or.inl hm
        · exact Or.inr (List.mem_cons_of_mem _ hm)
      · intro y hy
        rcases List.mem_cons.mp hy with rfl | hy
        · exact le_trans (le_of_not_lt hc) hle
        · exact hall y hy

/-- The levels swept by `run_escalating_benchmark` are
`step, 2 step, ..., <= max`, and there are `max / step` of them. -/
theorem pyRange_levels_length (maxC step : ℕ) (hstep : 1 ≤ step)
    (hmax : step ≤ maxC) :
    (QueryBench2.pyRange step (maxC + 1) step).length = maxC / step := by
  unfold QueryBench2.pyRange
  rw [List.length_map, List.length_range]
  congr 1
  omega

/-- Claim C8 (confirmed): the sweep runs `run_benchmark` exactly once per
level, sequentially, the produced stats list records every attempted level in
strictly ascending concurrency order, and `print_summary` labels as optimal a
stats record of the produced list whose queries-per-second value is maximal
among all of them. -/
theorem claim_c8_sweep (duration : ℚ) (data : ℕ → QueryBench2.RunData)
    (maxC step : ℕ) (hstep : 1 ≤ step) (hmax : step ≤ maxC) :
    (QueryBench2.run_escalating_benchmark duration data maxC step).map
        (fun s => s.concurrency) = QueryBench2.pyRange step (maxC + 1) step
    ∧ (QueryBench2.pyRange step (maxC + 1) step).Pairwise (· < ·)
    ∧ ∃ opt,
        QueryBench2.optimalStats
            (QueryBench2.run_escalating_benchmark duration data maxC step)
          = some opt
        ∧ opt ∈ QueryBench2.run_escalating_benchmark duration data maxC step
        ∧ ∀ s ∈ QueryBench2.run_escalating_benchmark duration data maxC step,
            s.queries_per_second ≤ opt.queries_per_second := by
  refine ⟨?_, ?_, ?_⟩
  · unfold QueryBench2.run_escalating_benchmark
    rw [List.map_map]
    exact List.map_id _
  · unfold QueryBench2.pyRange
    rw [List.pairwise_map]
    refine (List.pairwise_lt_range _).imp ?_
    intro i j hij
    have : i * step < j * step :=
      mul_lt_mul_of_pos_right hij (by omega)
    omega
  · have hlen :
        1 ≤ (QueryBench2.run_escalating_benchmark duration data maxC step).length := by
      unfold QueryBench2.run_escalating_benchmark
      rw [List.length_map, pyRange_levels_length maxC step hstep hmax]
      exact Nat.one_le_div_iff (by omega) |>.mpr hmax
    cases hres : QueryBench2.run_escalating_benchmark duration data maxC step with
    | nil => rw [hres] at hlen; simp at hlen
    | cons r rs =>
      obtain ⟨hmem, _, hall⟩ :=
        foldBest_spec (fun s => s.queries_per_second) rs r
      refine ⟨QueryBench2.foldBest (fun s => s.queries_per_second) r rs,
        rfl, ?_, ?_⟩
      · rcases hmem with hm | hm
        · exact (by rw [hm]; exact List.mem_cons_self r rs)
        · exact List.mem_cons_of_mem _ hm
      · intro s hs
        rcases List.mem_cons.mp hs with rfl | hs
        · exact (foldBest_spec (fun s => s.queries_per_second) rs s).2.1
        · exact hall s hs

/-- Claim C8 witness: a sweep up to concurrency 2 in steps of 1. -/
theorem claim_c8_witness :
    (QueryBench2.run_escalating_benchmark 1 (fun c => ⟨c, [], [], 0⟩) 2 1).map
        (fun s => s.concurrency) = QueryBench2.pyRange 1 3 1 :=
  (claim_c8_sweep 1 (fun c => ⟨c, [], [], 0⟩) 2 1 (by decide) (by decide)).1

/-- The batch count computed by the driver is at least 1, its predecessor
times the batch size stays below the row count, and it times the batch size
covers the row count. -/
theorem batches_needed_bounds (N B : ℕ) (hN : 1 ≤ N) (hB : 1 ≤ B) :
    1 ≤ InsertMany.batches_needed N B
    ∧ (InsertMany.batches_needed N B - 1) * B < N
    ∧ N ≤ InsertMany.batches_needed N B * B := by
  unfold InsertMany.batches_needed
  obtain ⟨q, hq⟩ : ∃ q, N / B = q := ⟨_, rfl⟩
  obtain ⟨r, hr⟩ : ∃ r, N % B = r := ⟨_, rfl⟩
  have hm : q * B + r = N := by
    rw [← hq, ← hr, Nat.mul_comm]
    exact Nat.div_add_mod N B
  have hrB : r < B := by
    rw [← hr]
    exact Nat.mod_lt N (by omega)
  rw [hq, hr]
  by_cases h0 : r > 0
  · rw [if_pos h0]
    have e1 : (q + 1 - 1) * B = q * B := rfl
    have e2 : (q + 1) * B = q * B + B := by rw [Nat.add_mul, Nat.one_mul]
    refine ⟨by omega, ?_, ?_⟩
    · rw [e1]; omega
    · rw [e2]; omega
  · rw [if_neg h0]
    rcases Nat.eq_zero_or_pos q with hq0 | hq1
    · exfalso
      rw [hq0, Nat.zero_mul, Nat.zero_add] at hm
      omega
    · have e3 : (q + 0 - 1) * B = q * B - B := by
        rw [Nat.add_zero, Nat.sub_mul, Nat.one_mul]
      have e4 : (q + 0) * B = q * B := by rw [Nat.add_zero]
      have e5 : B ≤ q * B := by
        calc B = 1 * B := (Nat.one_mul B).symm
        _ ≤ q * B := Nat.mul_le_mul_right B hq1
      refine ⟨by omega, ?_, ?_⟩
      · rw [e3]; omega
      · rw [e4]; omega

/-- The batch count is the ceiling division of rows by batch size. -/
theorem batches_needed_eq_ceil (N B : ℕ) (hB : 1 ≤ B) :
    InsertMany.batches_needed N B = (N + B - 1) / B := by
  unfold InsertMany.batches_needed
  obtain ⟨q, hq⟩ : ∃ q, N / B = q := ⟨_, rfl⟩
  obtain ⟨r, hr⟩ : ∃ r, N % B = r := ⟨_, rfl⟩
  have hm : q * B + r = N := by
    rw [← hq, ← hr, Nat.mul_comm]
    exact Nat.div_add_mod N B
  have hrB : r < B := by
    rw [← hr]
    exact Nat.mod_lt N (by omega)
  rw [hq, hr]
  by_cases h0 : r > 0
  · rw [if_pos h0]
    have harg : N + B - 1 = (r - 1) + B * (q + 1) := by
      have e : B * (q + 1) = q * B + B := by
        rw [Nat.mul_add, Nat.mul_one, Nat.mul_comm]
      omega
    rw [harg, Nat.add_mul_div_left _ _ (by omega : 0 < B),
      Nat.div_eq_of_lt (by omega : r - 1 < B)]
    omega
  · rw [if_neg h0]
    have harg : N + B - 1 = (B - 1) + B * q := by
      have e : B * q = q * B := Nat.mul_comm B q
      omega
    rw [harg, Nat.add_mul_div_left _ _ (by omega : 0 < B),
      Nat.div_eq_of_lt (by omega : B - 1 < B)]
    omega

/-- Summing `min B (N - i * B)` over `i < k` gives `N` whenever the `k`
batches cover the `N` rows. -/
theorem sum_range_min_batches (B : ℕ) :
    ∀ (k N : ℕ), N ≤ k * B →
      ((List.range k).map fun i => min B (N - i * B)).sum = N := by
  intro k
  induction k with
  | zero =>
    intro N h
    simp only [Nat.zero_mul, Nat.le_zero] at h
    simp [h]
  | succ k ih =>
    intro N h
    rw [List.range_succ_eq_map, List.map_cons, List.sum_cons, List.map_map]
    have hfun : ((fun i => min B (N - i * B)) ∘ Nat.succ)
        = fun i => min B (N - B - i * B) := by
      funext i
      simp only [Function.comp]
      congr 1
      have : Nat.succ i * B = i * B + B := by rw [Nat.succ_mul]
      omega
    rw [hfun]
    have hNB : N - B ≤ k * B := by
      have hsucc : (k + 1) * B = k * B + B := by rw [Nat.add_mul, Nat.one_mul]
      omega
    rw [ih (N - B) hNB]
    simp only [Nat.zero_mul, Nat.sub_zero]
    omega

/-- Indexing into the enqueued batch-size list within bounds yields the
per-iteration `min` expression of line 161. -/
theorem batch_sizes_getD (N B i : ℕ)
    (h : i < InsertMany.batches_needed N B) :
    (InsertMany.batch_sizes N B).getD i 0
      = InsertMany.current_batch_size N B i := by
  unfold InsertMany.batch_sizes
  rw [List.getD_eq_getElem?_getD, List.getElem?_map, List.getElem?_range h]
  rfl

/-- Claim C10 (confirmed): for every row count and batch size at least 1 the
driver enqueues exactly `ceil(NUM_ROWS / BATCH_SIZE)` batches whose sizes sum
to exactly the row count; every batch except the last has the full batch
size, the last has the positive remainder
`NUM_ROWS - (batches - 1) * BATCH_SIZE`, and `generate_batch` returns exactly
the requested number of rows. -/
theorem claim_c10_batching (N B : ℕ) (hN : 1 ≤ N) (hB : 1 ≤ B) :
    InsertMany.batches_needed N B = (N + B - 1) / B
    ∧ (InsertMany.batch_sizes N B).length = InsertMany.batches_needed N B
    ∧ (InsertMany.batch_sizes N B).sum = N
    ∧ (∀ i, i + 1 < InsertMany.batches_needed N B →
        (InsertMany.batch_sizes N B).getD i 0 = B)
    ∧ (InsertMany.batch_sizes N B).getD (InsertMany.batches_needed N B - 1) 0
        = N - (InsertMany.batches_needed N B - 1) * B
    ∧ 0 < N - (InsertMany.batches_needed N B - 1) * B
    ∧ ∀ (Row : Type) (b : ℕ) (gen : ℕ → Row),
        (InsertMany.generate_batch b gen).length = b := by
  obtain ⟨hk1, hlow, hhigh⟩ := batches_needed_bounds N B hN hB
  refine ⟨batches_needed_eq_ceil N B hB, ?_, ?_, ?_, ?_, by omega, ?_⟩
  · unfold InsertMany.batch_sizes
    rw [List.length_map, List.length_range]
  · unfold InsertMany.batch_sizes InsertMany.current_batch_size
    exact sum_range_min_batches B _ N hhigh
  · intro i hi
    rw [batch_sizes_getD N B i (by omega)]
    unfold InsertMany.current_batch_size
    have hle : (i + 1) * B ≤ (InsertMany.batches_needed N B - 1) * B :=
      Nat.mul_le_mul_right B (by omega)
    have hiB : (i + 1) * B = i * B + B := by rw [Nat.add_mul, Nat.one_mul]
    omega
  · rw [batch_sizes_getD N B _ (by omega)]
    unfold InsertMany.current_batch_size
    have hkB : InsertMany.batches_needed N B * B
        = (InsertMany.batches_needed N B - 1) * B + B := by
      rw [Nat.sub_mul, Nat.one_mul]
      have := Nat.mul_le_mul_right B hk1
      omega
    omega
  · intro Row b gen
    unfold InsertMany.generate_batch
    rw [List.length_map, List.length_range]

/-- Claim C10 witness: 25 rows in batches of 10 give batch sizes 10, 10, 5. -/
theorem claim_c10_witness : (InsertMany.batch_sizes 25 10).sum = 25 :=
  (claim_c10_batching 25 10 (by decide) (by decide)).2.2.1
